import Mathlib

/-!
# Shallow embedding of `src/shocks_and_reactions/shock_events.py`

This file models the shock-detection / event-window construction routine
`IdentifyShockEvents._detect_shocks` (and the entry points `__init__` and
`identify_shock_events`) of the repository as pure Lean functions, and proves
or refutes the specification's claims about it.

Modelling conventions:
* Dates are integers (days since an arbitrary epoch); pandas `Timedelta(days=n)`
  arithmetic becomes integer addition, and `(index - event_date).days` becomes
  integer subtraction.
* Float columns (`SP500_Return`, `Rate_Change`, the derived `Rate_Change_bp`,
  `SP500_Return_%`, `Cum_Return_%`) are modelled as rationals.
* The DataFrame is a list of rows in index order; `df.loc[a : b]` on a
  chronologically sorted index is the sub-list of rows whose date lies in the
  closed interval `[a, b]`, modelled as an order-preserving `filter`.
* `self.data` is the only piece of object state the routine touches; it is
  modelled as an explicit state record threaded through the method.
-/

/-- The `Shock_Type` column's categorical values:
`"No Shock"`, `"Hike"`, `"Cut"`. -/
inductive ShockType where
  | noShock
  | hike
  | cut
deriving DecidableEq, Repr

/-- One row of the input DataFrame: the Date index value and the two columns
`SP500_Return` (daily decimal return) and `Rate_Change` (daily decimal change
in the effective federal funds rate) that `_detect_shocks` reads. -/
structure Row where
  date : ℤ
  sp500Return : ℚ
  rateChange : ℚ
deriving DecidableEq, Repr

/-- One row of the enriched copy `df` produced inside `_detect_shocks`:
the original columns plus `is_fomc_date`, `FOMC_Window`, `Rate_Change_bp`
and `Shock_Type`. -/
structure TaggedRow where
  date : ℤ
  sp500Return : ℚ
  rateChange : ℚ
  isFomcDate : Bool
  fomcWindow : Option ℕ
  rateChangeBp : ℚ
  shockType : ShockType
deriving DecidableEq, Repr

/-- One row of the concatenated event-window frame `events_df`: the columns
`SP500_Return_%`, `Days_From_Event`, `Event_Date`, `Cum_Return_%`,
`Shock_Type` selected at the end of the loop body. -/
structure EventRow where
  sp500ReturnPct : ℚ
  daysFromEvent : ℤ
  eventDate : ℤ
  cumReturnPct : ℚ
  shockType : ShockType
deriving DecidableEq, Repr

/-- `df["FOMC_Window"] = df.index.map(lambda d: next((i for i, date in
enumerate(dates) if d >= date), None))`: the index of the first calendar date
(in iteration order) that is `≤ d`, or `none` when no calendar date is `≤ d`. -/
def fomcWindowIdx : List ℤ → ℤ → Option ℕ
  | [], _ => none
  | a :: rest, d =>
      if a ≤ d then some 0 else (fomcWindowIdx rest d).map (· + 1)

/-- The per-day shock classification of lines 118–121: default `"No Shock"`;
`"Hike"` where `|Rate_Change_bp| ≥ threshold` and `Rate_Change_bp > 0`;
`"Cut"` where `|Rate_Change_bp| ≥ threshold` and `Rate_Change_bp < 0`. -/
def classifyDay (bp threshold : ℚ) : ShockType :=
  if threshold ≤ |bp| ∧ 0 < bp then .hike
  else if threshold ≤ |bp| ∧ bp < 0 then .cut
  else .noShock

/-- The per-row effect of lines 112–121 on one row of the copied frame:
add the `is_fomc_date`, `FOMC_Window`, `Rate_Change_bp` and `Shock_Type`
columns. -/
def tagRow (dates : List ℤ) (threshold : ℚ) (r : Row) : TaggedRow :=
  { date := r.date
    sp500Return := r.sp500Return
    rateChange := r.rateChange
    isFomcDate := decide (r.date ∈ dates)
    fomcWindow := fomcWindowIdx dates r.date
    rateChangeBp := r.rateChange * 100
    shockType := classifyDay (r.rateChange * 100) threshold }

/-- Lines 110–121: copy the data and add the four derived columns. -/
def tagSeries (data : List Row) (dates : List ℤ) (threshold : ℚ) :
    List TaggedRow :=
  data.map (tagRow dates threshold)

/-- `df.loc[event_date - Timedelta(days=before) : event_date +
Timedelta(days=after)]` on a chronologically sorted index: the rows whose
date lies in the closed interval `[d - before, d + after]`. -/
def windowRows (df : List TaggedRow) (before after d : ℤ) : List TaggedRow :=
  df.filter fun r => decide (d - before ≤ r.date ∧ r.date ≤ d + after)

/-- `(1 + window["SP500_Return"]).cumprod()`: the running products
`∏_{j ≤ i} (1 + return_j)`. -/
def cumFactors (returns : List ℚ) : List ℚ :=
  (returns.scanl (fun acc r => acc * (1 + r)) 1).tail

/-- The loop body of lines 124–147 for one `event_date`: select the window's
rows, and derive `Days_From_Event`, `Event_Date`, `SP500_Return_%` and
`Cum_Return_%` for each. -/
def makeWindow (df : List TaggedRow) (before after d : ℤ) : List EventRow :=
  ((windowRows df before after d).zip
      (cumFactors ((windowRows df before after d).map (·.sp500Return)))).map
    fun p =>
      { sp500ReturnPct := p.1.sp500Return * 100
        daysFromEvent := p.1.date - d
        eventDate := d
        cumReturnPct := (p.2 - 1) * 100
        shockType := p.1.shockType }

/-- Lines 123–147: one window per calendar date, in calendar iteration order,
keeping only the windows whose row selection is non-empty
(`if not window.empty`). The source hard-codes `before = 10`, `after = 20`
days at the call site; the selection logic itself is uniform in them, so they
are parameters here. -/
def buildWindows (df : List TaggedRow) (dates : List ℤ) (before after : ℤ) :
    List (List EventRow) :=
  (dates.map (makeWindow df before after)).filter fun w => !w.isEmpty

/-- The exception raised by the `events_df` fallback of lines 151–160:
`df.iloc[0:0][["SP500_Return_%", "Days_From_Event", "Event_Date",
"Cum_Return_%", "Shock_Type"]]` selects five columns from `df`, but four of
them (`SP500_Return_%`, `Days_From_Event`, `Event_Date`, `Cum_Return_%`) are
created only on the per-window copies (lines 129–135) and never added to
`df`, so pandas raises `KeyError` for the missing labels. -/
def eventsFallbackError : String :=
  "KeyError: columns not in index"

/-- `_detect_shocks` as a function of the data it reads: returns the enriched
copy `df` and the concatenation `events_df` of the per-date windows
(lines 149–162). When `event_windows` is empty the fallback branch runs and
raises (see `eventsFallbackError`), modelled as `Except.error`. -/
def detectShocks (data : List Row) (dates : List ℤ) (threshold : ℚ) :
    Except String (List TaggedRow × List EventRow) :=
  if (buildWindows (tagSeries data dates threshold) dates 10 20).isEmpty then
    .error eventsFallbackError
  else
    .ok (tagSeries data dates threshold,
      (buildWindows (tagSeries data dates threshold) dates 10 20).flatten)

/-- The object state that `_detect_shocks` can see: `self.data`. -/
structure ShockState where
  data : List Row
deriving DecidableEq, Repr

/-- The method `_detect_shocks` as a state transformer: line 110 takes a copy
of `self.data` (`df = self.data.copy()`); every subsequent assignment targets
`df` or a `.copy()` of a slice of it, so the state component is returned
unchanged alongside the two frames. -/
def detectShocksMethod (s : ShockState) (dates : List ℤ) (threshold : ℚ) :
    ShockState × Except String (List TaggedRow × List EventRow) :=
  (s, detectShocks s.data dates threshold)

/-- `__init__` (lines 23–86): store the input data, then call
`_detect_shocks(fomc_dates, threshold=10)` on the hard-coded FOMC calendar
and discard its return value. The hard-coded calendar is a parameter here so
that the discarding can be stated for every calendar. -/
def initShockState (data : List Row) (fomcDates : List ℤ) : ShockState :=
  (detectShocksMethod ⟨data⟩ fomcDates 10).1

/-- `identify_shock_events` (lines 88–92): the detection step
`self._detect_shocks(self.data.index, threshold=10)` — the announcement dates
passed in are the series' own date index. (`_fit_shocks` and
`_visualise_shocks` only print and plot; they are outside this model.) -/
def identifyShockEvents (data : List Row) :
    Except String (List TaggedRow × List EventRow) :=
  detectShocks data (data.map Row.date) 10

/-- Modelled from the spec (for comparison with `fomcWindowIdx`, which is
translated from the source): "the index of the latest calendar date that is
≤ the row's date". For the chronologically sorted calendars the spec assumes,
the latest such date is the last one in list order. -/
def latestLeIdx : List ℤ → ℤ → Option ℕ
  | [], _ => none
  | a :: rest, d =>
      match latestLeIdx rest d with
      | some j => some (j + 1)
      | none => if a ≤ d then some 0 else none

/-- The projection of an enriched row back onto the input columns. -/
def projRow (tr : TaggedRow) : Row :=
  { date := tr.date, sp500Return := tr.sp500Return, rateChange := tr.rateChange }

/-- The announcement dates represented in a list of windows: each window's
`Event_Date`, read off its first row. -/
def windowDates (ws : List (List EventRow)) : List ℤ :=
  ws.filterMap fun w => w.head?.map (·.eventDate)

/-- Concrete test fixture: the event row the transform produces for the
one-row series `[(0, 0, 0)]`, calendar `[0]`, zero-width window. -/
def eventRow0 : EventRow :=
  { sp500ReturnPct := 0, daysFromEvent := 0, eventDate := 0,
    cumReturnPct := 0, shockType := .noShock }

/-! ## Helper lemmas -/

theorem cumFactors_length (l : List ℚ) : (cumFactors l).length = l.length := by
  simp [cumFactors, List.length_tail, List.length_scanl]

theorem cumFactors_cons (r : ℚ) (rs : List ℚ) :
    ∃ t, cumFactors (r :: rs) = (1 * (1 + r)) :: t := by
  unfold cumFactors
  cases rs <;> exact ⟨_, rfl⟩

theorem makeWindow_length (df : List TaggedRow) (before after d : ℤ) :
    (makeWindow df before after d).length
      = (windowRows df before after d).length := by
  simp [makeWindow, List.length_zip, cumFactors_length]

theorem makeWindow_eq_nil_iff (df : List TaggedRow) (before after d : ℤ) :
    makeWindow df before after d = [] ↔ windowRows df before after d = [] := by
  rw [← List.length_eq_zero, ← List.length_eq_zero, makeWindow_length]

theorem mem_buildWindows {df : List TaggedRow} {dates : List ℤ}
    {before after : ℤ} {w : List EventRow}
    (hw : w ∈ buildWindows df dates before after) :
    (∃ d ∈ dates, w = makeWindow df before after d) ∧ w ≠ [] := by
  simp only [buildWindows, List.mem_filter, List.mem_map] at hw
  obtain ⟨⟨d, hd, rfl⟩, hne⟩ := hw
  refine ⟨⟨d, hd, rfl⟩, ?_⟩
  simpa [List.isEmpty_iff] using hne

theorem mem_makeWindow {df : List TaggedRow} {before after d : ℤ}
    {e : EventRow} (he : e ∈ makeWindow df before after d) :
    ∃ tr ∈ windowRows df before after d,
      e.sp500ReturnPct = tr.sp500Return * 100 ∧
      e.daysFromEvent = tr.date - d ∧ e.eventDate = d ∧
      e.shockType = tr.shockType := by
  simp only [makeWindow, List.mem_map] at he
  obtain ⟨⟨tr, c⟩, hp, rfl⟩ := he
  exact ⟨tr, (List.of_mem_zip hp).1, rfl, rfl, rfl, rfl⟩

theorem mem_windowRows {df : List TaggedRow} {before after d : ℤ}
    {tr : TaggedRow} (htr : tr ∈ windowRows df before after d) :
    tr ∈ df ∧ d - before ≤ tr.date ∧ tr.date ≤ d + after := by
  have h := List.mem_filter.mp htr
  exact ⟨h.1, by simpa using h.2⟩

theorem mem_tagSeries {data : List Row} {dates : List ℤ} {t : ℚ}
    {tr : TaggedRow} (htr : tr ∈ tagSeries data dates t) :
    ∃ r ∈ data, tr = tagRow dates t r := by
  obtain ⟨r, hr, rfl⟩ := List.mem_map.mp htr
  exact ⟨r, hr, rfl⟩

theorem makeWindow_map_daysFromEvent (df : List TaggedRow)
    (before after d : ℤ) :
    (makeWindow df before after d).map (·.daysFromEvent)
      = (windowRows df before after d).map (fun tr => tr.date - d) := by
  unfold makeWindow
  rw [List.map_map]
  have hlen : (windowRows df before after d).length
      ≤ (cumFactors ((windowRows df before after d).map (·.sp500Return))).length := by
    rw [cumFactors_length, List.length_map]
  calc ((windowRows df before after d).zip
          (cumFactors ((windowRows df before after d).map (·.sp500Return)))).map
        ((fun e : EventRow => e.daysFromEvent) ∘ fun p => _)
      = (((windowRows df before after d).zip
          (cumFactors ((windowRows df before after d).map (·.sp500Return)))).map
          Prod.fst).map (fun tr => tr.date - d) := by
        rw [List.map_map]; rfl
    _ = (windowRows df before after d).map (fun tr => tr.date - d) := by
        rw [List.map_fst_zip _ _ hlen]

theorem head?_makeWindow {df : List TaggedRow} {before after d : ℤ}
    {tr : TaggedRow} {rest : List TaggedRow}
    (h : windowRows df before after d = tr :: rest) :
    (makeWindow df before after d).head? = some
      { sp500ReturnPct := tr.sp500Return * 100
        daysFromEvent := tr.date - d
        eventDate := d
        cumReturnPct := (1 * (1 + tr.sp500Return) - 1) * 100
        shockType := tr.shockType } := by
  unfold makeWindow
  rw [h, List.map_cons]
  obtain ⟨t, ht⟩ := cumFactors_cons tr.sp500Return (rest.map (·.sp500Return))
  rw [ht]
  rfl

theorem buildWindows_nil (dates : List ℤ) (before after : ℤ) :
    buildWindows [] dates before after = [] := by
  induction dates with
  | nil => rfl
  | cons d ds ih =>
      simp only [buildWindows, List.map_cons, List.filter_cons] at ih ⊢
      simp [show makeWindow [] before after d = [] from rfl, ih]

theorem windowDates_buildWindows (df : List TaggedRow) (dates : List ℤ)
    (before after : ℤ) :
    windowDates (buildWindows df dates before after)
      = dates.filter fun d => !(windowRows df before after d).isEmpty := by
  induction dates with
  | nil => rfl
  | cons d ds ih =>
      simp only [buildWindows, List.map_cons, List.filter_cons,
        windowDates] at ih ⊢
      by_cases h : (windowRows df before after d).isEmpty
      · have hmk : makeWindow df before after d = [] :=
          (makeWindow_eq_nil_iff df before after d).mpr
            (List.isEmpty_iff.mp h)
        simp [hmk, h, ih]
      · have hne : windowRows df before after d ≠ [] := by
          simpa [List.isEmpty_iff] using h
        obtain ⟨tr, rest, hcons⟩ := List.exists_cons_of_ne_nil hne
        have hb1 : (makeWindow df before after d).isEmpty = false := by
          simp [List.isEmpty_iff, makeWindow_eq_nil_iff, hne]
        simp [hb1, h, List.filterMap_cons, head?_makeWindow hcons, ih]

theorem length_filter_add_length_filter_not {α : Type} (l : List α)
    (p : α → Bool) :
    (l.filter p).length + (l.filter fun x => !(p x)).length = l.length := by
  induction l with
  | nil => rfl
  | cons a t ih =>
      by_cases h : p a <;> simp [List.filter_cons, h, ← ih] <;> omega

/-! ## Claim theorems -/

/-- C4: for every rate change `r` (in basis points) and positive threshold
`t`, the per-day classification returns Hike iff `r ≥ t`, Cut iff `r ≤ -t`,
and NoShock otherwise; ties at `r = t` and `r = -t` count as shocks. -/
theorem classify_day_threshold_boundaries (r t : ℚ) (ht : 0 < t) :
    (classifyDay r t = .hike ↔ t ≤ r) ∧
    (classifyDay r t = .cut ↔ r ≤ -t) ∧
    (classifyDay r t = .noShock ↔ -t < r ∧ r < t) := by
  unfold classifyDay
  split_ifs with h1 h2
  · obtain ⟨ha, hp⟩ := h1
    rw [abs_of_pos hp] at ha
    exact ⟨⟨fun _ => ha, fun _ => rfl⟩,
      ⟨fun hc => (nomatch hc), fun hle => absurd hp (not_lt.mpr (by linarith))⟩,
      ⟨fun hc => (nomatch hc), fun hlt => absurd ha (not_le.mpr hlt.2)⟩⟩
  · obtain ⟨ha, hn⟩ := h2
    rw [abs_of_neg hn] at ha
    exact ⟨⟨fun hc => (nomatch hc), fun hle => absurd hn (not_lt.mpr (by linarith))⟩,
      ⟨fun _ => by linarith, fun _ => rfl⟩,
      ⟨fun hc => (nomatch hc), fun hlt => absurd hlt.1 (not_lt.mpr (by linarith))⟩⟩
  · have habs : |r| < t := by
      by_contra hab
      push_neg at hab
      rcases lt_trichotomy r 0 with hr | hr | hr
      · exact h2 ⟨hab, hr⟩
      · rw [hr] at hab
        simp at hab
        linarith
      · exact h1 ⟨hab, hr⟩
    have hb := abs_lt.mp habs
    exact ⟨⟨fun hc => (nomatch hc), fun hle => absurd hle (not_le.mpr hb.2)⟩,
      ⟨fun hc => (nomatch hc), fun hle => absurd hle (not_le.mpr hb.1)⟩,
      ⟨fun _ => hb, fun _ => rfl⟩⟩

/-- Witness for C4, at `r = 20`, `t = 10`. -/
theorem classify_day_threshold_boundaries_witness :
    (0 : ℚ) < 10 ∧
      ((classifyDay 20 10 = .hike ↔ (10 : ℚ) ≤ 20) ∧
       (classifyDay 20 10 = .cut ↔ (20 : ℚ) ≤ -10) ∧
       (classifyDay 20 10 = .noShock ↔ -(10 : ℚ) < 20 ∧ (20 : ℚ) < 10)) :=
  ⟨by norm_num, classify_day_threshold_boundaries 20 10 (by norm_num)⟩

/-- C6, evaluated at the claim's inputs: with an empty input series the
tagged result is empty and no window survives, and with an empty calendar no
window survives — but in both cases `_detect_shocks` does **not** complete
without exception: its `events_df` fallback selects the window-only columns
from `df` and raises `KeyError` (see `eventsFallbackError`). -/
theorem empty_inputs_raise_keyerror (dates : List ℤ) (t : ℚ)
    (before after : ℤ) (df : List TaggedRow) :
    tagSeries [] dates t = [] ∧
    buildWindows (tagSeries [] dates t) dates before after = [] ∧
    buildWindows df [] before after = [] ∧
    detectShocks [] dates t = .error eventsFallbackError ∧
    (∀ data : List Row, detectShocks data [] t = .error eventsFallbackError) := by
  refine ⟨rfl, buildWindows_nil dates before after, rfl, ?_, fun data => rfl⟩
  unfold detectShocks
  rw [show tagSeries [] dates t = [] from rfl, buildWindows_nil]
  rfl

/-- C9: `_detect_shocks` leaves `self.data` unchanged, and the enriched copy
it returns projects back, column for column and row for row, onto the
original data — nothing of the source series is added, removed or modified. -/
theorem detect_shocks_preserves_source (s : ShockState) (dates : List ℤ)
    (t : ℚ) :
    (detectShocksMethod s dates t).1 = s ∧
    (tagSeries s.data dates t).map projRow = s.data := by
  refine ⟨rfl, ?_⟩
  unfold tagSeries
  rw [List.map_map]
  have hcomp : projRow ∘ tagRow dates t = id := by
    funext r
    rfl
  rw [hcomp, List.map_id]

/-- C1 counterexample: in the spec's own concrete scenario (series on days
1–5 with returns `[0.01, -0.02, 0.03, 0, 0.01]`, one calendar date at day 3,
window one day either side), the window's first row carries cumulative return
`-2%` — the first row's own return — not `0`. -/
theorem first_row_cum_return_zero_cex :
    ((buildWindows (tagSeries [⟨1, 1/100, 0⟩, ⟨2, -2/100, 0⟩, ⟨3, 3/100, 0⟩,
        ⟨4, 0, 0⟩, ⟨5, 1/100, 0⟩] [3] 10) [3] 1 1).flatten.map
      (·.cumReturnPct)).head? = some (-2) ∧ ((-2 : ℚ) ≠ 0) := by
  constructor
  · norm_num [buildWindows, tagSeries, tagRow, makeWindow, windowRows,
      cumFactors, classifyDay, fomcWindowIdx]
  · norm_num

/-- C1 (amended): the cumulative compounding includes the window's first row,
so for every non-empty window the cumulative-return value attached to the
first row equals that row's own (percent) daily return — it is `0` only when
that day's return is `0`. -/
theorem first_row_cum_return_eq_own_return (df : List TaggedRow)
    (dates : List ℤ) (before after : ℤ) (w : List EventRow)
    (hw : w ∈ buildWindows df dates before after)
    (e : EventRow) (he : w.head? = some e) :
    e.cumReturnPct = e.sp500ReturnPct := by
  obtain ⟨⟨d, hd, rfl⟩, hne⟩ := mem_buildWindows hw
  have hwr : windowRows df before after d ≠ [] := by
    intro hnil
    exact hne ((makeWindow_eq_nil_iff df before after d).mpr hnil)
  obtain ⟨tr, rest, hcons⟩ := List.exists_cons_of_ne_nil hwr
  rw [head?_makeWindow hcons] at he
  injection he with he
  rw [← he]
  show (1 * (1 + tr.sp500Return) - 1) * 100 = tr.sp500Return * 100
  ring

/-- Witness for the amended C1: the one-row series `[(0, 0, 0)]` with
calendar `[0]` and a zero-width window. -/
theorem first_row_cum_return_eq_own_return_witness :
    ([eventRow0] ∈ buildWindows (tagSeries [⟨0, 0, 0⟩] [0] 10) [0] 0 0 ∧
      [eventRow0].head? = some eventRow0) ∧
    eventRow0.cumReturnPct = eventRow0.sp500ReturnPct :=
  ⟨⟨by norm_num [buildWindows, tagSeries, tagRow, makeWindow, windowRows,
      cumFactors, classifyDay, fomcWindowIdx, eventRow0], rfl⟩,
    first_row_cum_return_eq_own_return
      (tagSeries [⟨0, 0, 0⟩] [0] 10) [0] 0 0 [eventRow0]
      (by norm_num [buildWindows, tagSeries, tagRow, makeWindow, windowRows,
        cumFactors, classifyDay, fomcWindowIdx, eventRow0]) eventRow0 rfl⟩

/-- C2 counterexample: series with a 20 bp hike on day 0 and no change on
day 1, calendar `[1]`. The announcement day's own classification is NoShock,
yet the window row for day 0 is tagged Hike — rows keep their own per-day
classification, they are not re-tagged with the announcement day's. -/
theorem window_event_day_classification_cex :
    ((buildWindows (tagSeries [⟨0, 0, 2/10⟩, ⟨1, 0, 0⟩] [1] 10) [1] 10 20).flatten.map
        (·.shockType) = [.hike, .noShock]) ∧
    classifyDay (0 * 100) 10 = .noShock ∧ ShockType.hike ≠ .noShock := by
  refine ⟨?_, by norm_num [classifyDay], by decide⟩
  norm_num [buildWindows, tagSeries, tagRow, makeWindow, windowRows,
    cumFactors, classifyDay, fomcWindowIdx]

/-- C2 (amended): every row of every window carries the per-day shock
classification computed from that row's own rate change (the `Shock_Type`
column of the enriched frame), not the announcement day's. -/
theorem window_rows_carry_own_classification (data : List Row)
    (dates : List ℤ) (t : ℚ) (before after : ℤ) (e : EventRow)
    (he : e ∈ (buildWindows (tagSeries data dates t) dates before after).flatten) :
    ∃ r ∈ data, r.date = e.eventDate + e.daysFromEvent ∧
      e.shockType = classifyDay (r.rateChange * 100) t := by
  obtain ⟨w, hw, hew⟩ := List.mem_flatten.mp he
  obtain ⟨⟨d, hd, rfl⟩, _⟩ := mem_buildWindows hw
  obtain ⟨tr, htr, _, hoff, hev, hst⟩ := mem_makeWindow hew
  obtain ⟨htr', _, _⟩ := mem_windowRows htr
  obtain ⟨r, hr, rfl⟩ := mem_tagSeries htr'
  refine ⟨r, hr, ?_, ?_⟩
  · rw [hev, hoff]
    show r.date = d + ((tagRow dates t r).date - d)
    simp [tagRow]
  · rw [hst]
    rfl

/-- Witness for the amended C2: the one-row series `[(0, 0, 0)]` with
calendar `[0]` and a zero-width window. -/
theorem window_rows_carry_own_classification_witness :
    (eventRow0 ∈ (buildWindows (tagSeries [⟨0, 0, 0⟩] [0] 10) [0] 0 0).flatten) ∧
    ∃ r ∈ [(⟨0, 0, 0⟩ : Row)],
      r.date = eventRow0.eventDate + eventRow0.daysFromEvent ∧
        eventRow0.shockType = classifyDay (r.rateChange * 100) 10 :=
  ⟨by norm_num [buildWindows, tagSeries, tagRow, makeWindow, windowRows,
      cumFactors, classifyDay, fomcWindowIdx, eventRow0],
    window_rows_carry_own_classification [⟨0, 0, 0⟩] [0] 10 0 0 eventRow0
      (by norm_num [buildWindows, tagSeries, tagRow, makeWindow, windowRows,
        cumFactors, classifyDay, fomcWindowIdx, eventRow0])⟩

/-- The characterisation of `fomcWindowIdx`: it returns the index of the
first calendar date in iteration order that is `≤ d` (every earlier-indexed
calendar date is `> d`), and `none` exactly when every calendar date is
`> d`. -/
theorem fomcWindowIdx_first_le (dates : List ℤ) (d : ℤ) :
    (∀ i : ℕ, fomcWindowIdx dates d = some i →
        i < dates.length ∧ dates.getD i 0 ≤ d ∧
          ∀ j : ℕ, j < i → d < dates.getD j 0) ∧
    (fomcWindowIdx dates d = none → ∀ x ∈ dates, d < x) := by
  induction dates with
  | nil =>
      exact ⟨fun i h => by simp [fomcWindowIdx] at h,
        fun _ x hx => absurd hx (List.not_mem_nil x)⟩
  | cons a rest ih =>
      by_cases ha : a ≤ d
      · refine ⟨?_, ?_⟩
        · intro i hi
          simp only [fomcWindowIdx, if_pos ha, Option.some_inj] at hi
          subst hi
          exact ⟨by simp, by simpa using ha, fun j hj => absurd hj (Nat.not_lt_zero j)⟩
        · intro hnone
          simp [fomcWindowIdx, ha] at hnone
      · refine ⟨?_, ?_⟩
        · intro i hi
          simp only [fomcWindowIdx, if_neg ha] at hi
          cases hrec : fomcWindowIdx rest d with
          | none => rw [hrec] at hi; simp at hi
          | some j =>
              rw [hrec] at hi
              simp only [Option.map_some', Option.some_inj] at hi
              subst hi
              obtain ⟨hlen, hle, hlt⟩ := ih.1 j hrec
              refine ⟨by simpa using Nat.succ_lt_succ hlen, by simpa using hle, ?_⟩
              intro k hk
              cases k with
              | zero => simpa using lt_of_not_le ha
              | succ k' => simpa using hlt k' (Nat.lt_of_succ_lt_succ hk)
        · intro hnone x hx
          simp only [fomcWindowIdx, if_neg ha] at hnone
          cases hrec : fomcWindowIdx rest d with
          | some j => rw [hrec] at hnone; simp at hnone
          | none =>
              rcases List.mem_cons.mp hx with rfl | hx'
              · exact lt_of_not_le ha
              · exact ih.2 hrec x hx'

/-- C3 counterexample: with the sorted duplicate-free calendar `[0, 1]` and a
row dated `1`, the code assigns epoch `0` (the first calendar date `≤ 1`),
while the latest calendar date `≤ 1` has index `1`. -/
theorem epoch_latest_calendar_date_cex :
    (tagSeries [⟨1, 0, 0⟩] [0, 1] 10).map (·.fomcWindow) = [some 0] ∧
    latestLeIdx [0, 1] 1 = some 1 ∧ some 0 ≠ some (1 : ℕ) := by
  refine ⟨?_, ?_, by decide⟩
  · norm_num [tagSeries, tagRow, fomcWindowIdx]
  · norm_num [latestLeIdx]

/-- C3 (amended): the announcement-epoch value assigned to a row is the index
of the *earliest* calendar date (the first in iteration order) that is ≤ the
row's date — index 0 whenever the row is on or after the first calendar date
of a sorted calendar — and rows dated before every calendar date receive no
epoch. -/
theorem epoch_is_first_calendar_date_le (data : List Row) (dates : List ℤ)
    (t : ℚ) (tr : TaggedRow) (htr : tr ∈ tagSeries data dates t) :
    (∀ i : ℕ, tr.fomcWindow = some i →
        i < dates.length ∧ dates.getD i 0 ≤ tr.date ∧
          ∀ j : ℕ, j < i → tr.date < dates.getD j 0) ∧
    (tr.fomcWindow = none → ∀ x ∈ dates, tr.date < x) := by
  obtain ⟨r, hr, rfl⟩ := mem_tagSeries htr
  exact fomcWindowIdx_first_le dates r.date

/-- Witness for the amended C3: the one-row series `[(5, 0, 0)]` with
calendar `[3]`; the row's epoch is `some 0`. -/
theorem epoch_is_first_calendar_date_le_witness :
    ((⟨5, 0, 0, false, some 0, 0, .noShock⟩ : TaggedRow)
        ∈ tagSeries [⟨5, 0, 0⟩] [3] 10) ∧
    ((∀ i : ℕ, (⟨5, 0, 0, false, some 0, 0, .noShock⟩ : TaggedRow).fomcWindow = some i →
        i < [(3 : ℤ)].length ∧ [(3 : ℤ)].getD i 0 ≤ (⟨5, 0, 0, false, some 0, 0, .noShock⟩ : TaggedRow).date ∧
          ∀ j : ℕ, j < i → (⟨5, 0, 0, false, some 0, 0, .noShock⟩ : TaggedRow).date < [(3 : ℤ)].getD j 0) ∧
      ((⟨5, 0, 0, false, some 0, 0, .noShock⟩ : TaggedRow).fomcWindow = none →
        ∀ x ∈ [(3 : ℤ)], (⟨5, 0, 0, false, some 0, 0, .noShock⟩ : TaggedRow).date < x)) :=
  ⟨by norm_num [tagSeries, tagRow, fomcWindowIdx, classifyDay],
    epoch_is_first_calendar_date_le [⟨5, 0, 0⟩] [3] 10 _
      (by norm_num [tagSeries, tagRow, fomcWindowIdx, classifyDay])⟩

/-- C5 counterexample: in the concrete scenario (series days 1–5, returns
`[0.01, -0.02, 0.03, 0, 0.01]`, calendar `[3]`, one day either side) the
`Cum_Return_%` column reads `[-2, 0.94, 0.94]`, not the claimed
`[0.0, -0.02, 0.0094]` (which is `[0, -2, 0.94]` in percent). -/
theorem concrete_scenario_cum_returns_cex :
    ((buildWindows (tagSeries [⟨1, 1/100, 0⟩, ⟨2, -2/100, 0⟩, ⟨3, 3/100, 0⟩,
        ⟨4, 0, 0⟩, ⟨5, 1/100, 0⟩] [3] 10) [3] 1 1).flatten.map
      (·.cumReturnPct)) = [-2, 47/50, 47/50] ∧
    ([(-2 : ℚ), 47/50, 47/50] ≠ [0, -2, 47/50]) := by
  constructor
  · norm_num [buildWindows, tagSeries, tagRow, makeWindow, windowRows,
      cumFactors, classifyDay, fomcWindowIdx]
  · norm_num

/-- C5 (amended): in the concrete scenario the single window covers days 2–4
with offsets `[-1, 0, 1]`; the cumulative compounding includes the first
selected row, so the cumulative returns are `[-0.02, 0.0094, 0.0094]`
(`[-2, 0.94, 0.94]` in the percent column), with `0.0094 = 0.98·1.03 − 1`. -/
theorem concrete_scenario_window :
    (buildWindows (tagSeries [⟨1, 1/100, 0⟩, ⟨2, -2/100, 0⟩, ⟨3, 3/100, 0⟩,
        ⟨4, 0, 0⟩, ⟨5, 1/100, 0⟩] [3] 10) [3] 1 1).length = 1 ∧
    ((buildWindows (tagSeries [⟨1, 1/100, 0⟩, ⟨2, -2/100, 0⟩, ⟨3, 3/100, 0⟩,
        ⟨4, 0, 0⟩, ⟨5, 1/100, 0⟩] [3] 10) [3] 1 1).flatten.map
      (fun e => e.eventDate + e.daysFromEvent)) = [2, 3, 4] ∧
    ((buildWindows (tagSeries [⟨1, 1/100, 0⟩, ⟨2, -2/100, 0⟩, ⟨3, 3/100, 0⟩,
        ⟨4, 0, 0⟩, ⟨5, 1/100, 0⟩] [3] 10) [3] 1 1).flatten.map
      (·.daysFromEvent)) = [-1, 0, 1] ∧
    ((buildWindows (tagSeries [⟨1, 1/100, 0⟩, ⟨2, -2/100, 0⟩, ⟨3, 3/100, 0⟩,
        ⟨4, 0, 0⟩, ⟨5, 1/100, 0⟩] [3] 10) [3] 1 1).flatten.map
      (·.cumReturnPct)) = [-2, 47/50, 47/50] := by
  refine ⟨?_, ?_, ?_, ?_⟩ <;>
    norm_num [buildWindows, tagSeries, tagRow, makeWindow, windowRows,
      cumFactors, classifyDay, fomcWindowIdx]

/-- C7: for windows built from a chronologically sorted, duplicate-free
series, every offset lies in the closed range `[-before, after]` and the
offsets are monotonically non-decreasing in the order the window's rows
appear. -/
theorem window_offsets_bounded_monotone (df : List TaggedRow)
    (dates : List ℤ) (before after : ℤ)
    (hsorted : df.Pairwise (fun x y => x.date < y.date))
    (w : List EventRow) (hw : w ∈ buildWindows df dates before after) :
    (∀ e ∈ w, -before ≤ e.daysFromEvent ∧ e.daysFromEvent ≤ after) ∧
    (w.map (·.daysFromEvent)).Pairwise (· ≤ ·) := by
  obtain ⟨⟨d, hd, rfl⟩, _⟩ := mem_buildWindows hw
  constructor
  · intro e he
    obtain ⟨tr, htr, _, hoff, _, _⟩ := mem_makeWindow he
    obtain ⟨_, h1, h2⟩ := mem_windowRows htr
    rw [hoff]
    omega
  · rw [makeWindow_map_daysFromEvent]
    have hp : (windowRows df before after d).Pairwise
        (fun x y => x.date < y.date) := hsorted.filter _
    rw [List.pairwise_map]
    exact hp.imp fun h => by omega

/-- Witness for C7: the two-row sorted series on days 1 and 2, calendar
`[1]`, the default 10/20 window. -/
theorem window_offsets_bounded_monotone_witness :
    ((tagSeries [⟨1, 0, 0⟩, ⟨2, 0, 0⟩] [1] 10).Pairwise
        (fun x y => x.date < y.date) ∧
      [(⟨0, 0, 1, 0, .noShock⟩ : EventRow), ⟨0, 1, 1, 0, .noShock⟩]
        ∈ buildWindows (tagSeries [⟨1, 0, 0⟩, ⟨2, 0, 0⟩] [1] 10) [1] 10 20) ∧
    ((∀ e ∈ [(⟨0, 0, 1, 0, .noShock⟩ : EventRow), ⟨0, 1, 1, 0, .noShock⟩],
        -(10 : ℤ) ≤ e.daysFromEvent ∧ e.daysFromEvent ≤ 20) ∧
      (([(⟨0, 0, 1, 0, .noShock⟩ : EventRow), ⟨0, 1, 1, 0, .noShock⟩].map
        (·.daysFromEvent)).Pairwise (· ≤ ·))) := by
  have hs : (tagSeries [⟨1, 0, 0⟩, ⟨2, 0, 0⟩] [1] 10).Pairwise
      (fun x y => x.date < y.date) := by
    norm_num [tagSeries, tagRow, List.pairwise_cons]
  have hm : [(⟨0, 0, 1, 0, .noShock⟩ : EventRow), ⟨0, 1, 1, 0, .noShock⟩]
      ∈ buildWindows (tagSeries [⟨1, 0, 0⟩, ⟨2, 0, 0⟩] [1] 10) [1] 10 20 := by
    norm_num [buildWindows, tagSeries, tagRow, makeWindow, windowRows,
      cumFactors, classifyDay, fomcWindowIdx]
  exact ⟨⟨hs, hm⟩, window_offsets_bounded_monotone _ [1] 10 20 hs _ hm⟩

/-- C8: no produced window has row count 0; the announcement dates
represented in the output are exactly the calendar dates whose closed range
selects at least one series row — for a duplicate-free calendar they are
distinct and number `|calendar| − #skipped`. -/
theorem windows_nonempty_and_skipped_count (df : List TaggedRow)
    (dates : List ℤ) (before after : ℤ) (hnd : dates.Nodup) :
    (∀ w ∈ buildWindows df dates before after, w ≠ []) ∧
    windowDates (buildWindows df dates before after)
      = dates.filter (fun d => !(windowRows df before after d).isEmpty) ∧
    (windowDates (buildWindows df dates before after)).Nodup ∧
    (windowDates (buildWindows df dates before after)).length
      = dates.length
        - (dates.filter (fun d => (windowRows df before after d).isEmpty)).length := by
  have hwd := windowDates_buildWindows df dates before after
  refine ⟨fun w hw => (mem_buildWindows hw).2, hwd, ?_, ?_⟩
  · rw [hwd]
    exact hnd.filter _
  · rw [hwd]
    have hlen := length_filter_add_length_filter_not dates
      (fun d => (windowRows df before after d).isEmpty)
    omega

/-- Witness for C8: one-row series on day 0, calendar `[0, 1]`, zero-width
windows — day 0 is kept, day 1 is skipped, so 1 = 2 − 1 dates survive. -/
theorem windows_nonempty_and_skipped_count_witness :
    ([(0 : ℤ), 1].Nodup) ∧
    ((∀ w ∈ buildWindows (tagSeries [⟨0, 0, 0⟩] [0] 10) [0, 1] 0 0, w ≠ []) ∧
      windowDates (buildWindows (tagSeries [⟨0, 0, 0⟩] [0] 10) [0, 1] 0 0)
        = [(0 : ℤ), 1].filter
            (fun d => !(windowRows (tagSeries [⟨0, 0, 0⟩] [0] 10) 0 0 d).isEmpty) ∧
      (windowDates (buildWindows (tagSeries [⟨0, 0, 0⟩] [0] 10) [0, 1] 0 0)).Nodup ∧
      (windowDates (buildWindows (tagSeries [⟨0, 0, 0⟩] [0] 10) [0, 1] 0 0)).length
        = [(0 : ℤ), 1].length
          - ([(0 : ℤ), 1].filter
              (fun d => (windowRows (tagSeries [⟨0, 0, 0⟩] [0] 10) 0 0 d).isEmpty)).length) :=
  ⟨by decide, windows_nonempty_and_skipped_count
    (tagSeries [⟨0, 0, 0⟩] [0] 10) [0, 1] 0 0 (by decide)⟩

/-- C10: in `identify_shock_events` the announcement dates handed to
`_detect_shocks` are the series' own date index — every tagged row is marked
as an announcement date and every series date contributes a window — while
the constructor's call on the hard-coded FOMC calendar is discarded: the
stored state is just the input data, whatever that calendar is. -/
theorem identify_uses_series_dates (data : List Row) :
    (∀ cal : List ℤ, initShockState data cal = ⟨data⟩) ∧
    identifyShockEvents data = detectShocks data (data.map Row.date) 10 ∧
    (∀ tr ∈ tagSeries data (data.map Row.date) 10, tr.isFomcDate = true) ∧
    windowDates (buildWindows (tagSeries data (data.map Row.date) 10)
        (data.map Row.date) 10 20)
      = data.map Row.date := by
  refine ⟨fun _ => rfl, rfl, ?_, ?_⟩
  · intro tr htr
    obtain ⟨r, hr, rfl⟩ := mem_tagSeries htr
    show decide (r.date ∈ data.map Row.date) = true
    simp only [decide_eq_true_eq]
    exact List.mem_map.mpr ⟨r, hr, rfl⟩
  · rw [windowDates_buildWindows]
    apply List.filter_eq_self.mpr
    intro d hd
    obtain ⟨r, hr, hrd⟩ := List.mem_map.mp hd
    subst hrd
    have hmem : tagRow (data.map Row.date) 10 r
        ∈ windowRows (tagSeries data (data.map Row.date) 10) 10 20 r.date := by
      apply List.mem_filter.mpr
      constructor
      · exact List.mem_map.mpr ⟨r, hr, rfl⟩
      · have hdt : (tagRow (data.map Row.date) 10 r).date = r.date := rfl
        simp only [decide_eq_true_eq, hdt]
        omega
    cases hempty : (windowRows (tagSeries data (data.map Row.date) 10)
        10 20 r.date).isEmpty with
    | false => rfl
    | true =>
        rw [List.isEmpty_iff.mp hempty] at hmem
        exact absurd hmem (List.not_mem_nil _)

/-- Witness for C10: the one-row series `[(0, 0, 0)]` and (for the
constructor conjunct) the calendar `[5]`. -/
theorem identify_uses_series_dates_witness :
    initShockState [⟨0, 0, 0⟩] [5] = ⟨[⟨0, 0, 0⟩]⟩ ∧
    identifyShockEvents [⟨0, 0, 0⟩]
      = detectShocks [⟨0, 0, 0⟩] ([⟨0, 0, 0⟩].map Row.date) 10 ∧
    (∀ tr ∈ tagSeries [⟨0, 0, 0⟩] ([⟨0, 0, 0⟩].map Row.date) 10,
      tr.isFomcDate = true) ∧
    windowDates (buildWindows (tagSeries [⟨0, 0, 0⟩] ([⟨0, 0, 0⟩].map Row.date) 10)
        ([⟨0, 0, 0⟩].map Row.date) 10 20)
      = [(⟨0, 0, 0⟩ : Row)].map Row.date :=
  ⟨(identify_uses_series_dates [⟨0, 0, 0⟩]).1 [5],
    (identify_uses_series_dates [⟨0, 0, 0⟩]).2.1,
    (identify_uses_series_dates [⟨0, 0, 0⟩]).2.2.1,
    (identify_uses_series_dates [⟨0, 0, 0⟩]).2.2.2⟩
